import Mathlib

/-!
Verification of the safemoon-sdk router call builder.

The development shallowly embeds the two router modules of the repository
(`src/src/router.ts` and the unnamed constants/router module) together with
the entity layer they depend on.  The entity layer (`Trade`, `CurrencyAmount`,
`Percent`, the address validator) is not part of the provided sources, so it
is modelled from the specification where noted.
-/

/-! ## Constants module (embedding of the constants part of the unnamed file) -/

/-- Network identifiers, from the `ChainId` enum of the constants module
(`GOERLI` stands for the source's `GÖRLI`). -/
inductive ChainId where
  | MAINNET
  | ROPSTEN
  | RINKEBY
  | GOERLI
  | KOVAN
  | BSC_MAINNET
  | BSC_TESTNET
deriving DecidableEq, Repr

/-- Numeric value of each `ChainId` enum member. -/
def ChainId.toNat : ChainId → Nat
  | .MAINNET => 1
  | .ROPSTEN => 3
  | .RINKEBY => 4
  | .GOERLI => 5
  | .KOVAN => 42
  | .BSC_MAINNET => 56
  | .BSC_TESTNET => 97

/-- Trade side enum, from the constants module. -/
inductive TradeType where
  | EXACT_INPUT
  | EXACT_OUTPUT
deriving DecidableEq, Repr

/-- Rounding modes, from the constants module. -/
inductive Rounding where
  | ROUND_DOWN
  | ROUND_HALF_UP
  | ROUND_UP
deriving DecidableEq, Repr

/-- Per-network factory contract address table, from the constants module. -/
def FACTORY_ADDRESS : ChainId → String
  | .MAINNET => "0x26023843814cFF92B8d75311d64D1C032b8b29f2"
  | .ROPSTEN => "0xDfD8bbA37423950bD8050C65E698610C57E55cea"
  | .RINKEBY => ""
  | .GOERLI => ""
  | .KOVAN => ""
  | .BSC_MAINNET => "0x86A859773cf6df9C8117F20b0B950adA84e7644d"
  | .BSC_TESTNET => "0x0eef57EAE29DA890be9211c010F3e31d950fbE67"

/-- Per-network pool init-code hash table, from the constants module. -/
def INIT_CODE_HASH : ChainId → String
  | .MAINNET => "0x7fc48862bb659c6079c67f949053514afd141b7fcc1dc2b0a9474d647c51d670"
  | .ROPSTEN => "0x8b4ce8ec78a7c1be0d482d641f59b942070725a4b7782595db30956c6d46e824"
  | .RINKEBY => ""
  | .GOERLI => ""
  | .KOVAN => ""
  | .BSC_MAINNET => "0x7fc48862bb659c6079c67f949053514afd141b7fcc1dc2b0a9474d647c51d670"
  | .BSC_TESTNET => "0x058100cd6ec5f46d7d7d1e7084082fa4735355e21527487ff6a88c908174e2be"

/-! ## Entity layer

Modelled from the spec: the entity module (`./entities`) is imported by both
router modules but is not among the provided sources. -/

/-- Modelled from the spec: a token identified by network id, contract address
and decimal count (symbol/name omitted, they play no role in the router). -/
structure Token where
  chainId : ChainId
  address : String
  decimals : Nat
deriving DecidableEq, Repr

/-- Modelled from the spec: a currency is either the network's native asset
(the `ETHER` singleton) or a token. -/
inductive Currency where
  | ether
  | token (t : Token)
deriving DecidableEq, Repr

/-- Modelled from the spec: a `CurrencyAmount` binds an integer raw amount in
the currency's smallest unit to a currency. -/
structure CurrencyAmount where
  currency : Currency
  raw : Nat
deriving DecidableEq, Repr

/-- Modelled from the spec: arithmetic between two amounts requires identical
currency, else it fails. -/
def CurrencyAmount.add (a b : CurrencyAmount) : Option CurrencyAmount :=
  if a.currency = b.currency then some ⟨a.currency, a.raw + b.raw⟩ else none

/-- Modelled from the spec: a percent is a fraction interpreted as
parts-per-hundred, used only for slippage tolerance. -/
structure Percent where
  numerator : Nat
  denominator : Nat
deriving DecidableEq, Repr

/-- Modelled from the spec: an ordered sequence of pairs reduced to the data
the router consumes, the token path. -/
structure Route where
  path : List Token
deriving DecidableEq, Repr

/-- Modelled from the spec: a trade records the route, which side was fixed,
and the input and output amounts. -/
structure Trade where
  route : Route
  tradeType : TradeType
  inputAmount : CurrencyAmount
  outputAmount : CurrencyAmount
deriving DecidableEq, Repr

/-- Modelled from the spec: for EXACT_OUTPUT trades the maximum input is
`inputAmount * (1 + slippageTolerance)` rounded up; for EXACT_INPUT the input
amount is already fixed and returned unchanged. -/
def Trade.maximumAmountIn (t : Trade) (p : Percent) : CurrencyAmount :=
  match t.tradeType with
  | TradeType.EXACT_OUTPUT =>
      ⟨t.inputAmount.currency,
        (t.inputAmount.raw * (p.denominator + p.numerator) + (p.denominator - 1)) / p.denominator⟩
  | TradeType.EXACT_INPUT => t.inputAmount

/-- Modelled from the spec: for EXACT_INPUT trades the minimum output is
`outputAmount * (1 / (1 + slippageTolerance))` rounded down; for EXACT_OUTPUT
the output amount is already fixed and returned unchanged. -/
def Trade.minimumAmountOut (t : Trade) (p : Percent) : CurrencyAmount :=
  match t.tradeType with
  | TradeType.EXACT_INPUT =>
      ⟨t.outputAmount.currency,
        t.outputAmount.raw * p.denominator / (p.denominator + p.numerator)⟩
  | TradeType.EXACT_OUTPUT => t.outputAmount

/-! ## Hexadecimal encoding

Embedding of the JavaScript `raw.toString(16)` used by `toHex` and the
deadline template literal: minimal-width lowercase hexadecimal digits. -/

/-- Character for a single hexadecimal digit value below 16, lowercase. -/
def hexDigitChar (n : Nat) : Char :=
  if n < 10 then Char.ofNat (48 + n) else Char.ofNat (87 + n)

/-- Fuel-driven most-significant-first hexadecimal digit expansion; the fuel
only forces structural recursion and is irrelevant once at least `n + 1`. -/
def hexDigitsAux : Nat → Nat → List Char
  | 0, _ => []
  | fuel + 1, n =>
    if n < 16 then [hexDigitChar n]
    else hexDigitsAux fuel (n / 16) ++ [hexDigitChar (n % 16)]

/-- Minimal-width lowercase hexadecimal digit list of a natural number,
embedding the JavaScript `Number.prototype.toString(16)` on nonnegative
integers (`0` renders as the single digit `0`). -/
def hexDigits (n : Nat) : List Char :=
  hexDigitsAux (n + 1) n

/-- Embedding of the router module's `toHex`: a `0x`-prefixed minimal
lowercase hexadecimal rendering of the raw amount. -/
def toHex (currencyAmount : CurrencyAmount) : String :=
  "0x" ++ String.mk (hexDigits currencyAmount.raw)

/-! ## Address validator

Modelled from the spec: the external address validator accepts a 20-byte hex
address and fails on malformed input (checksum normalization out of scope). -/

/-- Lowercase hexadecimal digit test. -/
def isLowerHexDigit (c : Char) : Bool :=
  (decide ('0' ≤ c) && decide (c ≤ '9')) || (decide ('a' ≤ c) && decide (c ≤ 'f'))

/-- Hexadecimal digit test, either case. -/
def isHexChar (c : Char) : Bool :=
  isLowerHexDigit c || (decide ('A' ≤ c) && decide (c ≤ 'F'))

/-- Modelled from the spec: a valid address is a `0x`-prefixed 20-byte (40
hex digit) string. -/
def isValidAddress (s : String) : Bool :=
  match s.data with
  | '0' :: 'x' :: rest => rest.length == 40 && rest.all isHexChar
  | _ => false

/-- Minimal hexadecimal numeral: nonempty, lowercase hexadecimal digits only,
and no leading zero unless the numeral is a single digit. -/
def minimalHexChars : List Char → Bool
  | [] => false
  | [c] => isLowerHexDigit c
  | c :: d :: rest => (c != '0') && isLowerHexDigit c && (d :: rest).all isLowerHexDigit

/-- A string is a minimal hexadecimal field when it is `0x` followed by a
minimal lowercase hexadecimal numeral. -/
def isMinimalHex (s : String) : Bool :=
  match s.data with
  | '0' :: 'x' :: rest => minimalHexChars rest
  | _ => false

/-! ## Router errors -/

/-- Failure modes of `swapCallParameters`: an invariant failure carrying the
optional message the source passes to `invariant`, an address-validation
failure, or a currency mismatch inside amount arithmetic. -/
inductive RouterError where
  | invariantFailure (msg : Option String)
  | invalidAddress (address : String)
  | currencyMismatch
deriving DecidableEq, Repr

/-- Modelled from the spec: the validator returns the (already normalized)
address on success and fails on malformed input. -/
def validateAndParseAddress (s : String) : Except RouterError String :=
  if isValidAddress s then Except.ok s else Except.error (RouterError.invalidAddress s)

/-! ## Router call builder (embedding of src/src/router.ts) -/

/-- Options for producing the router call, from `src/src/router.ts`
(the `ethFee` module). -/
structure TradeOptions where
  allowedSlippage : Percent
  ttl : Int
  recipient : String
  feeOnTransfer : Option Bool
  ethFee : Option CurrencyAmount
deriving DecidableEq, Repr

/-- The struct argument passed to the fee-aware router methods. -/
structure SafeSwapTrade where
  amountIn : String
  amountOut : String
  path : List String
  «to» : String
  deadline : String
deriving DecidableEq, Repr

/-- One element of the `args` array: a hex string, a string array, or the
`SafeSwapTrade` record. -/
inductive SwapArg where
  | str (s : String)
  | strList (l : List String)
  | trade (t : SafeSwapTrade)
deriving DecidableEq, Repr

/-- The parameters of the call to the router contract. -/
structure SwapParameters where
  methodName : String
  args : List SwapArg
  value : String
deriving DecidableEq, Repr

/-- Embedding of `Router.swapCallParameters` of `src/src/router.ts`.  The
current Unix time in seconds (the source's `Math.floor(Date.now() / 1000)`)
is passed explicitly as `now`.  Validation mirrors the source order: the
ether-in/ether-out invariant, the ttl invariant, the (messageless) `ethFee`
invariant, then address validation, then amount computation. -/
def Router.swapCallParameters (now : Nat) (trade : Trade) (options : TradeOptions) :
    Except RouterError SwapParameters :=
  let etherIn := trade.inputAmount.currency == Currency.ether
  let etherOut := trade.outputAmount.currency == Currency.ether
  if etherIn && etherOut then Except.error (RouterError.invariantFailure (some "ETHER_IN_OUT"))
  else if !(options.ttl > 0 : Bool) then Except.error (RouterError.invariantFailure (some "TTL"))
  else
    match options.ethFee with
    | none => Except.error (RouterError.invariantFailure none)
    | some fee =>
      if !(fee.currency == Currency.ether) then Except.error (RouterError.invariantFailure none)
      else
        match validateAndParseAddress options.recipient with
        | Except.error e => Except.error e
        | Except.ok toAddr =>
          let amountInCurrency := trade.maximumAmountIn options.allowedSlippage
          let amountIn := toHex amountInCurrency
          let amountOutCurrency := trade.minimumAmountOut options.allowedSlippage
          let amountOut := toHex amountOutCurrency
          let path := trade.route.path.map Token.address
          let deadline := "0x" ++ String.mk (hexDigits ((Int.ofNat now + options.ttl).toNat))
          let ethFee := toHex fee
          let safeSwapTrade : SafeSwapTrade := ⟨amountIn, amountOut, path, toAddr, deadline⟩
          match trade.tradeType with
          | TradeType.EXACT_INPUT =>
            if etherIn then
              match amountInCurrency.add fee with
              | none => Except.error RouterError.currencyMismatch
              | some v =>
                Except.ok ⟨"swapExactETHForTokensWithFeeAmount",
                  [SwapArg.trade safeSwapTrade, SwapArg.str ethFee], toHex v⟩
            else if etherOut then
              Except.ok ⟨"swapExactTokensForETHAndTipAmount",
                [SwapArg.trade safeSwapTrade], ethFee⟩
            else
              Except.ok ⟨"swapExactTokensForTokensWithFeeAmount",
                [SwapArg.trade safeSwapTrade], ethFee⟩
          | TradeType.EXACT_OUTPUT =>
            if etherIn then
              match amountInCurrency.add fee with
              | none => Except.error RouterError.currencyMismatch
              | some v =>
                Except.ok ⟨"swapETHForExactTokensWithFeeAmount",
                  [SwapArg.trade safeSwapTrade, SwapArg.str ethFee], toHex v⟩
            else if etherOut then
              Except.ok ⟨"swapTokensForExactETHAndFeeAmount",
                [SwapArg.trade safeSwapTrade], ethFee⟩
            else
              Except.ok ⟨"swapTokensForExactTokensWithFeeAmount",
                [SwapArg.trade safeSwapTrade], ethFee⟩

/-! ## Router call builder (embedding of the unnamed module's router) -/

/-- Options of the unnamed module's router (the `ethTip` variant). -/
structure TipTradeOptions where
  allowedSlippage : Percent
  ttl : Int
  recipient : String
  feeOnTransfer : Option Bool
  ethTip : Option CurrencyAmount
deriving DecidableEq, Repr

/-- Renaming of the `ethFee` option record into the `ethTip` one, field for
field. -/
def TradeOptions.toTipOptions (o : TradeOptions) : TipTradeOptions :=
  ⟨o.allowedSlippage, o.ttl, o.recipient, o.feeOnTransfer, o.ethFee⟩

/-- Embedding of `Router.swapCallParameters` of the unnamed module: identical
validation and argument assembly, with the `ethTip` option field and the
`TipAmount` family of method names.  The module's `useFeeOnTransfer` local is
computed but never used and is omitted. -/
def Router2.swapCallParameters (now : Nat) (trade : Trade) (options : TipTradeOptions) :
    Except RouterError SwapParameters :=
  let etherIn := trade.inputAmount.currency == Currency.ether
  let etherOut := trade.outputAmount.currency == Currency.ether
  if etherIn && etherOut then Except.error (RouterError.invariantFailure (some "ETHER_IN_OUT"))
  else if !(options.ttl > 0 : Bool) then Except.error (RouterError.invariantFailure (some "TTL"))
  else
    match options.ethTip with
    | none => Except.error (RouterError.invariantFailure none)
    | some tip =>
      if !(tip.currency == Currency.ether) then Except.error (RouterError.invariantFailure none)
      else
        match validateAndParseAddress options.recipient with
        | Except.error e => Except.error e
        | Except.ok toAddr =>
          let amountInCurrency := trade.maximumAmountIn options.allowedSlippage
          let amountIn := toHex amountInCurrency
          let amountOutCurrency := trade.minimumAmountOut options.allowedSlippage
          let amountOut := toHex amountOutCurrency
          let path := trade.route.path.map Token.address
          let deadline := "0x" ++ String.mk (hexDigits ((Int.ofNat now + options.ttl).toNat))
          let ethTip := toHex tip
          let safeSwapTrade : SafeSwapTrade := ⟨amountIn, amountOut, path, toAddr, deadline⟩
          match trade.tradeType with
          | TradeType.EXACT_INPUT =>
            if etherIn then
              match amountInCurrency.add tip with
              | none => Except.error RouterError.currencyMismatch
              | some v =>
                Except.ok ⟨"swapExactETHForTokensWithTipAmount",
                  [SwapArg.trade safeSwapTrade, SwapArg.str ethTip], toHex v⟩
            else if etherOut then
              Except.ok ⟨"swapExactTokensForETHAndTipAmount",
                [SwapArg.trade safeSwapTrade], ethTip⟩
            else
              Except.ok ⟨"swapExactTokensForTokensWithTipAmount",
                [SwapArg.trade safeSwapTrade], ethTip⟩
          | TradeType.EXACT_OUTPUT =>
            if etherIn then
              match amountInCurrency.add tip with
              | none => Except.error RouterError.currencyMismatch
              | some v =>
                Except.ok ⟨"swapETHForExactTokensWithTipAmount",
                  [SwapArg.trade safeSwapTrade, SwapArg.str ethTip], toHex v⟩
            else if etherOut then
              Except.ok ⟨"swapTokensForExactETHAndTipAmount",
                [SwapArg.trade safeSwapTrade], ethTip⟩
            else
              Except.ok ⟨"swapTokensForExactTokensWithTipAmount",
                [SwapArg.trade safeSwapTrade], ethTip⟩

/-! ## Properties of the hexadecimal encoding -/

theorem hexDigitChar_lower : ∀ m < 16, isLowerHexDigit (hexDigitChar m) = true := by decide

theorem hexDigitChar_ne_zero : ∀ m < 16, m ≠ 0 → hexDigitChar m ≠ '0' := by decide

theorem hexDigitsAux_congr :
    ∀ f f' n, n < f → n < f' → hexDigitsAux f n = hexDigitsAux f' n := by
  intro f
  induction f with
  | zero => intro f' n hf; omega
  | succ f ih =>
    intro f' n hf hf'
    cases f' with
    | zero => omega
    | succ f' =>
      simp only [hexDigitsAux]
      by_cases h16 : n < 16
      · rw [if_pos h16, if_pos h16]
      · have hdiv : n / 16 < n := Nat.div_lt_self (by omega) (by omega)
        rw [if_neg h16, if_neg h16]
        rw [ih f' (n / 16) (by omega) (by omega)]

theorem hexDigits_eq (n : Nat) :
    hexDigits n =
      if n < 16 then [hexDigitChar n] else hexDigits (n / 16) ++ [hexDigitChar (n % 16)] := by
  show hexDigitsAux (n + 1) n = _
  simp only [hexDigitsAux]
  by_cases h16 : n < 16
  · rw [if_pos h16, if_pos h16]
  · rw [if_neg h16, if_neg h16]
    have hdiv : n / 16 < n := Nat.div_lt_self (by omega) (by omega)
    exact congrArg (· ++ [hexDigitChar (n % 16)])
      (hexDigitsAux_congr n (n / 16 + 1) (n / 16) (by omega) (Nat.lt_succ_self _))

theorem hexDigits_ne_nil (n : Nat) : hexDigits n ≠ [] := by
  rw [hexDigits_eq]
  by_cases h16 : n < 16 <;> simp [h16]

theorem hexDigits_all_lower (n : Nat) : ∀ c ∈ hexDigits n, isLowerHexDigit c = true := by
  induction n using Nat.strong_induction_on with
  | _ n ih =>
    rw [hexDigits_eq]
    by_cases h16 : n < 16
    · rw [if_pos h16]
      intro c hc
      rw [List.mem_singleton] at hc
      subst hc
      exact hexDigitChar_lower n h16
    · rw [if_neg h16]
      intro c hc
      rw [List.mem_append, List.mem_singleton] at hc
      rcases hc with hc | hc
      · exact ih (n / 16) (Nat.div_lt_self (by omega) (by omega)) c hc
      · subst hc
        exact hexDigitChar_lower (n % 16) (Nat.mod_lt _ (by omega))

theorem hexDigits_head_ne_zero :
    ∀ n : Nat, n ≠ 0 → ∀ c l, hexDigits n = c :: l → c ≠ '0' := by
  intro n
  induction n using Nat.strong_induction_on with
  | _ n ih =>
    intro hn c l hcl
    rw [hexDigits_eq] at hcl
    by_cases h16 : n < 16
    · rw [if_pos h16] at hcl
      rw [List.cons.injEq] at hcl
      rw [← hcl.1]
      exact hexDigitChar_ne_zero n h16 hn
    · rw [if_neg h16] at hcl
      obtain ⟨c0, t, he⟩ := List.exists_cons_of_ne_nil (hexDigits_ne_nil (n / 16))
      rw [he, List.cons_append, List.cons.injEq] at hcl
      rw [← hcl.1]
      have hd0 : n / 16 ≠ 0 := Nat.pos_iff_ne_zero.mp (Nat.div_pos (by omega) (by omega))
      exact ih (n / 16) (Nat.div_lt_self (by omega) (by omega)) hd0 c0 t he

theorem minimalHexChars_of (l : List Char) (hne : l ≠ [])
    (hall : ∀ c ∈ l, isLowerHexDigit c = true)
    (hhead : ∀ c t, l = c :: t → t ≠ [] → c ≠ '0') :
    minimalHexChars l = true := by
  match l with
  | [] => exact absurd rfl hne
  | [c] =>
    simp only [minimalHexChars]
    exact hall c (by simp)
  | c :: d :: rest =>
    have hc : c ≠ '0' := hhead c (d :: rest) rfl (by simp)
    simp only [minimalHexChars, Bool.and_eq_true, bne_iff_ne, ne_eq, List.all_eq_true]
    refine ⟨⟨hc, hall c (by simp)⟩, fun x hx => hall x ?_⟩
    simp only [List.mem_cons] at hx ⊢
    tauto

theorem minimalHexChars_hexDigits (n : Nat) : minimalHexChars (hexDigits n) = true := by
  by_cases hn : n = 0
  · subst hn; decide
  · refine minimalHexChars_of _ (hexDigits_ne_nil n) (hexDigits_all_lower n) ?_
    intro c t hct _
    exact hexDigits_head_ne_zero n hn c t hct

theorem isMinimalHex_hexString (n : Nat) :
    isMinimalHex ("0x" ++ String.mk (hexDigits n)) = true := by
  have hdata : ("0x" ++ String.mk (hexDigits n)).data = '0' :: 'x' :: hexDigits n := by
    simp [String.data_append]
  simp only [isMinimalHex, hdata]
  exact minimalHexChars_hexDigits n

theorem isMinimalHex_toHex (a : CurrencyAmount) : isMinimalHex (toHex a) = true :=
  isMinimalHex_hexString a.raw

/-! ## Characterization of the call builder -/

/-- Method-name table keyed by trade side and native-asset position, exactly
the six variants the spec lists for the fee-amount router; the native-out flag
is ignored when the input is native (validation excludes native-in together
with native-out). -/
def specMethodName : TradeType → Bool → Bool → String
  | TradeType.EXACT_INPUT, true, _ => "swapExactETHForTokensWithFeeAmount"
  | TradeType.EXACT_INPUT, false, true => "swapExactTokensForETHAndTipAmount"
  | TradeType.EXACT_INPUT, false, false => "swapExactTokensForTokensWithFeeAmount"
  | TradeType.EXACT_OUTPUT, true, _ => "swapETHForExactTokensWithFeeAmount"
  | TradeType.EXACT_OUTPUT, false, true => "swapTokensForExactETHAndFeeAmount"
  | TradeType.EXACT_OUTPUT, false, false => "swapTokensForExactTokensWithFeeAmount"

/-- Method-name table of the unnamed module's router (the tip-amount family). -/
def tipMethodName : TradeType → Bool → Bool → String
  | TradeType.EXACT_INPUT, true, _ => "swapExactETHForTokensWithTipAmount"
  | TradeType.EXACT_INPUT, false, true => "swapExactTokensForETHAndTipAmount"
  | TradeType.EXACT_INPUT, false, false => "swapExactTokensForTokensWithTipAmount"
  | TradeType.EXACT_OUTPUT, true, _ => "swapETHForExactTokensWithTipAmount"
  | TradeType.EXACT_OUTPUT, false, true => "swapTokensForExactETHAndTipAmount"
  | TradeType.EXACT_OUTPUT, false, false => "swapTokensForExactTokensWithTipAmount"

/-- The struct argument both builders assemble on their success path. -/
def mkSafeSwapTrade (now : Nat) (trade : Trade) (slippage : Percent) (ttl : Int)
    (recipient : String) : SafeSwapTrade :=
  ⟨toHex (trade.maximumAmountIn slippage),
   toHex (trade.minimumAmountOut slippage),
   trade.route.path.map Token.address,
   recipient,
   "0x" ++ String.mk (hexDigits ((Int.ofNat now + ttl).toNat))⟩

/-- The record the fee router returns on its success path. -/
def buildResult (now : Nat) (trade : Trade) (options : TradeOptions) (fee : CurrencyAmount) :
    SwapParameters :=
  let st := mkSafeSwapTrade now trade options.allowedSlippage options.ttl options.recipient
  ⟨specMethodName trade.tradeType (trade.inputAmount.currency == Currency.ether)
      (trade.outputAmount.currency == Currency.ether),
   if trade.inputAmount.currency == Currency.ether then
     [SwapArg.trade st, SwapArg.str (toHex fee)]
   else [SwapArg.trade st],
   if trade.inputAmount.currency == Currency.ether then
     "0x" ++ String.mk (hexDigits ((trade.maximumAmountIn options.allowedSlippage).raw + fee.raw))
   else toHex fee⟩

/-- The record the tip router returns on its success path. -/
def buildResult2 (now : Nat) (trade : Trade) (options : TipTradeOptions) (tip : CurrencyAmount) :
    SwapParameters :=
  let st := mkSafeSwapTrade now trade options.allowedSlippage options.ttl options.recipient
  ⟨tipMethodName trade.tradeType (trade.inputAmount.currency == Currency.ether)
      (trade.outputAmount.currency == Currency.ether),
   if trade.inputAmount.currency == Currency.ether then
     [SwapArg.trade st, SwapArg.str (toHex tip)]
   else [SwapArg.trade st],
   if trade.inputAmount.currency == Currency.ether then
     "0x" ++ String.mk (hexDigits ((trade.maximumAmountIn options.allowedSlippage).raw + tip.raw))
   else toHex tip⟩

theorem maximumAmountIn_currency (t : Trade) (p : Percent) :
    (t.maximumAmountIn p).currency = t.inputAmount.currency := by
  unfold Trade.maximumAmountIn
  cases h : t.tradeType <;> rfl

theorem etherBoth_false {trade : Trade}
    (hio : ¬(trade.inputAmount.currency = Currency.ether ∧
             trade.outputAmount.currency = Currency.ether)) :
    (trade.inputAmount.currency == Currency.ether &&
      trade.outputAmount.currency == Currency.ether) = false := by
  by_cases hin : trade.inputAmount.currency = Currency.ether <;>
    by_cases hout : trade.outputAmount.currency = Currency.ether <;> simp_all

theorem swapCallParameters_ok (now : Nat) (trade : Trade) (options : TradeOptions)
    (fee : CurrencyAmount)
    (hfee : options.ethFee = some fee) (hfc : fee.currency = Currency.ether)
    (haddr : isValidAddress options.recipient = true)
    (httl : options.ttl > 0)
    (hio : ¬(trade.inputAmount.currency = Currency.ether ∧
             trade.outputAmount.currency = Currency.ether)) :
    Router.swapCallParameters now trade options =
      Except.ok (buildResult now trade options fee) := by
  by_cases hin : trade.inputAmount.currency = Currency.ether
  · have hout : trade.outputAmount.currency ≠ Currency.ether := fun h => hio ⟨hin, h⟩
    have hinb : (trade.inputAmount.currency == Currency.ether) = true := by simp [hin]
    have houtb : (trade.outputAmount.currency == Currency.ether) = false := by simp [hout]
    cases htt : trade.tradeType <;>
      simp [Router.swapCallParameters, buildResult, mkSafeSwapTrade, specMethodName,
        hfee, hfc, hinb, houtb, hin, htt, httl, haddr, validateAndParseAddress,
        CurrencyAmount.add, maximumAmountIn_currency, toHex]
  · have hinb : (trade.inputAmount.currency == Currency.ether) = false := by simp [hin]
    by_cases hout : trade.outputAmount.currency = Currency.ether
    · have houtb : (trade.outputAmount.currency == Currency.ether) = true := by simp [hout]
      cases htt : trade.tradeType <;>
        simp [Router.swapCallParameters, buildResult, mkSafeSwapTrade, specMethodName,
          hfee, hfc, hinb, houtb, htt, httl, haddr, validateAndParseAddress,
          CurrencyAmount.add, maximumAmountIn_currency, toHex]
    · have houtb : (trade.outputAmount.currency == Currency.ether) = false := by simp [hout]
      cases htt : trade.tradeType <;>
        simp [Router.swapCallParameters, buildResult, mkSafeSwapTrade, specMethodName,
          hfee, hfc, hinb, houtb, htt, httl, haddr, validateAndParseAddress,
          CurrencyAmount.add, maximumAmountIn_currency, toHex]

theorem swapCallParameters_error_both (now : Nat) (trade : Trade) (options : TradeOptions)
    (hin : trade.inputAmount.currency = Currency.ether)
    (hout : trade.outputAmount.currency = Currency.ether) :
    Router.swapCallParameters now trade options =
      Except.error (RouterError.invariantFailure (some "ETHER_IN_OUT")) := by
  simp [Router.swapCallParameters, hin, hout]

theorem swapCallParameters_error_ttl (now : Nat) (trade : Trade) (options : TradeOptions)
    (hio : ¬(trade.inputAmount.currency = Currency.ether ∧
             trade.outputAmount.currency = Currency.ether))
    (httl : options.ttl ≤ 0) :
    Router.swapCallParameters now trade options =
      Except.error (RouterError.invariantFailure (some "TTL")) := by
  have h0 : ¬(0 < options.ttl) := by omega
  simp [Router.swapCallParameters, etherBoth_false hio, h0]

theorem swapCallParameters_error_tip (now : Nat) (trade : Trade) (options : TradeOptions)
    (hio : ¬(trade.inputAmount.currency = Currency.ether ∧
             trade.outputAmount.currency = Currency.ether))
    (httl : options.ttl > 0)
    (htip : ∀ fee, options.ethFee = some fee → fee.currency ≠ Currency.ether) :
    Router.swapCallParameters now trade options =
      Except.error (RouterError.invariantFailure none) := by
  cases hfee : options.ethFee with
  | none => simp [Router.swapCallParameters, etherBoth_false hio, httl, hfee]
  | some fee =>
    have hfc := htip fee hfee
    simp [Router.swapCallParameters, etherBoth_false hio, httl, hfee, hfc]

theorem swapCallParameters_error_addr (now : Nat) (trade : Trade) (options : TradeOptions)
    (fee : CurrencyAmount)
    (hio : ¬(trade.inputAmount.currency = Currency.ether ∧
             trade.outputAmount.currency = Currency.ether))
    (httl : options.ttl > 0)
    (hfee : options.ethFee = some fee) (hfc : fee.currency = Currency.ether)
    (haddr : isValidAddress options.recipient = false) :
    Router.swapCallParameters now trade options =
      Except.error (RouterError.invalidAddress options.recipient) := by
  simp [Router.swapCallParameters, etherBoth_false hio, httl, hfee, hfc,
    validateAndParseAddress, haddr]

theorem swapCallParameters_ok_inv {now : Nat} {trade : Trade} {options : TradeOptions}
    {res : SwapParameters}
    (h : Router.swapCallParameters now trade options = Except.ok res) :
    ∃ fee, options.ethFee = some fee ∧ fee.currency = Currency.ether ∧
      isValidAddress options.recipient = true ∧ options.ttl > 0 ∧
      ¬(trade.inputAmount.currency = Currency.ether ∧
        trade.outputAmount.currency = Currency.ether) ∧
      res = buildResult now trade options fee := by
  by_cases hio : trade.inputAmount.currency = Currency.ether ∧
      trade.outputAmount.currency = Currency.ether
  · rw [swapCallParameters_error_both now trade options hio.1 hio.2] at h
    exact absurd h (by simp)
  by_cases httl : options.ttl > 0
  case neg =>
    rw [swapCallParameters_error_ttl now trade options hio (by omega)] at h
    exact absurd h (by simp)
  cases hfee : options.ethFee with
  | none =>
    rw [swapCallParameters_error_tip now trade options hio httl
      (fun fee hf => by rw [hfee] at hf; cases hf)] at h
    exact absurd h (by simp)
  | some fee =>
    by_cases hfc : fee.currency = Currency.ether
    case neg =>
      rw [swapCallParameters_error_tip now trade options hio httl
        (fun fee' hf => by rw [hfee] at hf; rw [← Option.some.inj hf]; exact hfc)] at h
      exact absurd h (by simp)
    by_cases haddr : isValidAddress options.recipient = true
    · rw [swapCallParameters_ok now trade options fee hfee hfc haddr httl hio] at h
      exact ⟨fee, rfl, hfc, haddr, httl, hio, (Except.ok.inj h).symm⟩
    · rw [swapCallParameters_error_addr now trade options fee hio httl hfee hfc
        (by simpa using haddr)] at h
      exact absurd h (by simp)

/-! ## Characterization of the tip router -/

theorem swapCallParameters2_ok (now : Nat) (trade : Trade) (options : TipTradeOptions)
    (tip : CurrencyAmount)
    (htip : options.ethTip = some tip) (htc : tip.currency = Currency.ether)
    (haddr : isValidAddress options.recipient = true)
    (httl : options.ttl > 0)
    (hio : ¬(trade.inputAmount.currency = Currency.ether ∧
             trade.outputAmount.currency = Currency.ether)) :
    Router2.swapCallParameters now trade options =
      Except.ok (buildResult2 now trade options tip) := by
  by_cases hin : trade.inputAmount.currency = Currency.ether
  · have hout : trade.outputAmount.currency ≠ Currency.ether := fun h => hio ⟨hin, h⟩
    have hinb : (trade.inputAmount.currency == Currency.ether) = true := by simp [hin]
    have houtb : (trade.outputAmount.currency == Currency.ether) = false := by simp [hout]
    cases htt : trade.tradeType <;>
      simp [Router2.swapCallParameters, buildResult2, mkSafeSwapTrade, tipMethodName,
        htip, htc, hinb, houtb, hin, htt, httl, haddr, validateAndParseAddress,
        CurrencyAmount.add, maximumAmountIn_currency, toHex]
  · have hinb : (trade.inputAmount.currency == Currency.ether) = false := by simp [hin]
    by_cases hout : trade.outputAmount.currency = Currency.ether
    · have houtb : (trade.outputAmount.currency == Currency.ether) = true := by simp [hout]
      cases htt : trade.tradeType <;>
        simp [Router2.swapCallParameters, buildResult2, mkSafeSwapTrade, tipMethodName,
          htip, htc, hinb, houtb, htt, httl, haddr, validateAndParseAddress,
          CurrencyAmount.add, maximumAmountIn_currency, toHex]
    · have houtb : (trade.outputAmount.currency == Currency.ether) = false := by simp [hout]
      cases htt : trade.tradeType <;>
        simp [Router2.swapCallParameters, buildResult2, mkSafeSwapTrade, tipMethodName,
          htip, htc, hinb, houtb, htt, httl, haddr, validateAndParseAddress,
          CurrencyAmount.add, maximumAmountIn_currency, toHex]

theorem swapCallParameters2_error_both (now : Nat) (trade : Trade) (options : TipTradeOptions)
    (hin : trade.inputAmount.currency = Currency.ether)
    (hout : trade.outputAmount.currency = Currency.ether) :
    Router2.swapCallParameters now trade options =
      Except.error (RouterError.invariantFailure (some "ETHER_IN_OUT")) := by
  simp [Router2.swapCallParameters, hin, hout]

theorem swapCallParameters2_error_ttl (now : Nat) (trade : Trade) (options : TipTradeOptions)
    (hio : ¬(trade.inputAmount.currency = Currency.ether ∧
             trade.outputAmount.currency = Currency.ether))
    (httl : options.ttl ≤ 0) :
    Router2.swapCallParameters now trade options =
      Except.error (RouterError.invariantFailure (some "TTL")) := by
  have h0 : ¬(0 < options.ttl) := by omega
  simp [Router2.swapCallParameters, etherBoth_false hio, h0]

theorem swapCallParameters2_error_tip (now : Nat) (trade : Trade) (options : TipTradeOptions)
    (hio : ¬(trade.inputAmount.currency = Currency.ether ∧
             trade.outputAmount.currency = Currency.ether))
    (httl : options.ttl > 0)
    (htip : ∀ tip, options.ethTip = some tip → tip.currency ≠ Currency.ether) :
    Router2.swapCallParameters now trade options =
      Except.error (RouterError.invariantFailure none) := by
  cases hfee : options.ethTip with
  | none => simp [Router2.swapCallParameters, etherBoth_false hio, httl, hfee]
  | some tip =>
    have htc := htip tip hfee
    simp [Router2.swapCallParameters, etherBoth_false hio, httl, hfee, htc]

theorem swapCallParameters2_error_addr (now : Nat) (trade : Trade) (options : TipTradeOptions)
    (tip : CurrencyAmount)
    (hio : ¬(trade.inputAmount.currency = Currency.ether ∧
             trade.outputAmount.currency = Currency.ether))
    (httl : options.ttl > 0)
    (htip : options.ethTip = some tip) (htc : tip.currency = Currency.ether)
    (haddr : isValidAddress options.recipient = false) :
    Router2.swapCallParameters now trade options =
      Except.error (RouterError.invalidAddress options.recipient) := by
  simp [Router2.swapCallParameters, etherBoth_false hio, httl, htip, htc,
    validateAndParseAddress, haddr]

theorem swapCallParameters2_ok_inv {now : Nat} {trade : Trade} {options : TipTradeOptions}
    {res : SwapParameters}
    (h : Router2.swapCallParameters now trade options = Except.ok res) :
    ∃ tip, options.ethTip = some tip ∧ tip.currency = Currency.ether ∧
      isValidAddress options.recipient = true ∧ options.ttl > 0 ∧
      ¬(trade.inputAmount.currency = Currency.ether ∧
        trade.outputAmount.currency = Currency.ether) ∧
      res = buildResult2 now trade options tip := by
  by_cases hio : trade.inputAmount.currency = Currency.ether ∧
      trade.outputAmount.currency = Currency.ether
  · rw [swapCallParameters2_error_both now trade options hio.1 hio.2] at h
    exact absurd h (by simp)
  by_cases httl : options.ttl > 0
  case neg =>
    rw [swapCallParameters2_error_ttl now trade options hio (by omega)] at h
    exact absurd h (by simp)
  cases htip : options.ethTip with
  | none =>
    rw [swapCallParameters2_error_tip now trade options hio httl
      (fun tip hf => by rw [htip] at hf; cases hf)] at h
    exact absurd h (by simp)
  | some tip =>
    by_cases htc : tip.currency = Currency.ether
    case neg =>
      rw [swapCallParameters2_error_tip now trade options hio httl
        (fun tip' hf => by rw [htip] at hf; rw [← Option.some.inj hf]; exact htc)] at h
      exact absurd h (by simp)
    by_cases haddr : isValidAddress options.recipient = true
    · rw [swapCallParameters2_ok now trade options tip htip htc haddr httl hio] at h
      exact ⟨tip, rfl, htc, haddr, httl, hio, (Except.ok.inj h).symm⟩
    · rw [swapCallParameters2_error_addr now trade options tip hio httl htip htc
        (by simpa using haddr)] at h
      exact absurd h (by simp)

/-! ## Concrete example data -/

/-- Wrapped-native-style token on BSC mainnet (the factory address reused as
an arbitrary token address). -/
def tokenW : Token := ⟨ChainId.BSC_MAINNET, "0x86A859773cf6df9C8117F20b0B950adA84e7644d", 18⟩

/-- A second token on BSC mainnet. -/
def tokenB : Token := ⟨ChainId.BSC_MAINNET, "0x0eef57EAE29DA890be9211c010F3e31d950fbE67", 18⟩

/-- A recipient the address validator accepts. -/
def goodRecipient : String := "0x0000000000000000000000000000000000000001"

/-- One-hop exact-input trade with the native asset in and a token out. -/
def tradeEthIn : Trade :=
  ⟨⟨[tokenW, tokenB]⟩, TradeType.EXACT_INPUT,
   ⟨Currency.ether, 1000⟩, ⟨Currency.token tokenB, 3000⟩⟩

/-- One-hop exact-input trade with a token in and the native asset out. -/
def tradeEthOut : Trade :=
  ⟨⟨[tokenB, tokenW]⟩, TradeType.EXACT_INPUT,
   ⟨Currency.token tokenB, 1000⟩, ⟨Currency.ether, 3000⟩⟩

/-- One-hop exact-output token-to-token trade. -/
def tradeTok : Trade :=
  ⟨⟨[tokenW, tokenB]⟩, TradeType.EXACT_OUTPUT,
   ⟨Currency.token tokenW, 500⟩, ⟨Currency.token tokenB, 3000⟩⟩

/-- A degenerate trade with the native asset on both sides. -/
def tradeBothEth : Trade :=
  ⟨⟨[tokenW]⟩, TradeType.EXACT_INPUT, ⟨Currency.ether, 5⟩, ⟨Currency.ether, 5⟩⟩

/-- Options with a zero native tip, one percent slippage and ttl 1200. -/
def optionsZeroTip : TradeOptions :=
  ⟨⟨1, 100⟩, 1200, goodRecipient, none, some ⟨Currency.ether, 0⟩⟩

/-- Options with a native tip of 7 wei and ttl 600. -/
def optionsTip7 : TradeOptions :=
  ⟨⟨1, 100⟩, 600, goodRecipient, none, some ⟨Currency.ether, 7⟩⟩

/-- Options with no tip amount supplied. -/
def optionsNoTip : TradeOptions :=
  ⟨⟨1, 100⟩, 600, goodRecipient, none, none⟩

/-- Options whose tip amount is denominated in a token. -/
def optionsTokenTip : TradeOptions :=
  ⟨⟨1, 100⟩, 600, goodRecipient, none, some ⟨Currency.token tokenB, 7⟩⟩

/-- Options with ttl zero. -/
def optionsTtl0 : TradeOptions :=
  ⟨⟨1, 100⟩, 0, goodRecipient, none, some ⟨Currency.ether, 0⟩⟩

/-- Options with a malformed recipient. -/
def optionsBadAddr : TradeOptions :=
  ⟨⟨1, 100⟩, 600, "0xnot", none, some ⟨Currency.ether, 0⟩⟩

/-- The struct argument the builder assembles for `tradeEthIn` with
`optionsZeroTip` at Unix time 1700000000. -/
def stEthIn : SafeSwapTrade :=
  ⟨"0x3e8", "0xb9a",
   ["0x86A859773cf6df9C8117F20b0B950adA84e7644d",
    "0x0eef57EAE29DA890be9211c010F3e31d950fbE67"],
   goodRecipient, "0x6553f5b0"⟩

/-- The fee router's output for `tradeEthIn` with `optionsZeroTip`. -/
def resEthIn : SwapParameters :=
  ⟨"swapExactETHForTokensWithFeeAmount",
   [SwapArg.trade stEthIn, SwapArg.str "0x0"], "0x3e8"⟩

/-- The tip router's output for the same input. -/
def resEthIn2 : SwapParameters :=
  ⟨"swapExactETHForTokensWithTipAmount",
   [SwapArg.trade stEthIn, SwapArg.str "0x0"], "0x3e8"⟩

/-- The routers' common output for `tradeEthOut` with `optionsTip7`. -/
def resEthOut : SwapParameters :=
  ⟨"swapExactTokensForETHAndTipAmount",
   [SwapArg.trade ⟨"0x3e8", "0xb9a",
     ["0x0eef57EAE29DA890be9211c010F3e31d950fbE67",
      "0x86A859773cf6df9C8117F20b0B950adA84e7644d"],
     goodRecipient, "0x6553f358"⟩], "0x7"⟩

/-! ## Claims -/

/-- C1: for every trade and options that pass validation, the method name
returned by the fee router is determined solely by the pair of trade side and
native-asset position, and equals the corresponding entry of the six-variant
table `specMethodName` listed by the spec. -/
theorem C1_method_name_table (now : Nat) (trade : Trade) (options : TradeOptions)
    (res : SwapParameters)
    (h : Router.swapCallParameters now trade options = Except.ok res) :
    res.methodName = specMethodName trade.tradeType
      (trade.inputAmount.currency == Currency.ether)
      (trade.outputAmount.currency == Currency.ether) := by
  obtain ⟨fee, -, -, -, -, -, hres⟩ := swapCallParameters_ok_inv h
  subst hres
  rfl

/-- Witness for C1 at a concrete native-in exact-input trade. -/
theorem C1_method_name_table_witness :
    resEthIn.methodName = specMethodName tradeEthIn.tradeType
      (tradeEthIn.inputAmount.currency == Currency.ether)
      (tradeEthIn.outputAmount.currency == Currency.ether) :=
  C1_method_name_table 1700000000 tradeEthIn optionsZeroTip resEthIn (by rfl)

/-- C2: on every validated call, the returned `value` is the hex encoding of
`maximumAmountIn(allowedSlippage)` plus the tip amount when the input currency
is native, and the hex encoding of the tip amount alone otherwise. -/
theorem C2_value_field (now : Nat) (trade : Trade) (options : TradeOptions)
    (fee : CurrencyAmount) (res : SwapParameters)
    (hfee : options.ethFee = some fee)
    (h : Router.swapCallParameters now trade options = Except.ok res) :
    (trade.inputAmount.currency = Currency.ether →
      res.value = "0x" ++ String.mk
        (hexDigits ((trade.maximumAmountIn options.allowedSlippage).raw + fee.raw))) ∧
    (trade.inputAmount.currency ≠ Currency.ether → res.value = toHex fee) := by
  obtain ⟨fee', hfee', -, -, -, -, hres⟩ := swapCallParameters_ok_inv h
  rw [hfee] at hfee'
  obtain rfl := Option.some.inj hfee'
  subst hres
  constructor
  · intro hin
    have hinb : (trade.inputAmount.currency == Currency.ether) = true := by simp [hin]
    simp [buildResult, hinb]
  · intro hin
    have hinb : (trade.inputAmount.currency == Currency.ether) = false := by simp [hin]
    simp [buildResult, hinb]

/-- Witness for C2 at the concrete native-in trade with a zero tip. -/
theorem C2_value_field_witness :
    (tradeEthIn.inputAmount.currency = Currency.ether →
      resEthIn.value = "0x" ++ String.mk
        (hexDigits ((tradeEthIn.maximumAmountIn optionsZeroTip.allowedSlippage).raw +
          (⟨Currency.ether, 0⟩ : CurrencyAmount).raw))) ∧
    (tradeEthIn.inputAmount.currency ≠ Currency.ether →
      resEthIn.value = toHex ⟨Currency.ether, 0⟩) :=
  C2_value_field 1700000000 tradeEthIn optionsZeroTip ⟨Currency.ether, 0⟩ resEthIn rfl (by rfl)

/-- C3: for any trade whose currencies pass the native-in/native-out check,
ttl = 0 makes the builder fail with the named TTL policy error, and an invalid
recipient (all earlier checks passing) makes it fail with the address error;
both failures are fixed error values produced for every slippage and amount,
so no slippage-adjusted amount is needed and no partial `SwapParameters`
record is ever returned. -/
theorem C3_policy_failures (now : Nat) (trade : Trade) (options : TradeOptions)
    (hio : ¬(trade.inputAmount.currency = Currency.ether ∧
             trade.outputAmount.currency = Currency.ether)) :
    (options.ttl = 0 →
      Router.swapCallParameters now trade options =
        Except.error (RouterError.invariantFailure (some "TTL"))) ∧
    (∀ fee, options.ttl > 0 → options.ethFee = some fee →
      fee.currency = Currency.ether →
      isValidAddress options.recipient = false →
      Router.swapCallParameters now trade options =
        Except.error (RouterError.invalidAddress options.recipient)) := by
  constructor
  · intro h0
    exact swapCallParameters_error_ttl now trade options hio (by omega)
  · intro fee httl hfee hfc haddr
    exact swapCallParameters_error_addr now trade options fee hio httl hfee hfc haddr

/-- Witness for C3: ttl zero and a malformed recipient at concrete inputs. -/
theorem C3_policy_failures_witness :
    Router.swapCallParameters 1700000000 tradeTok optionsTtl0 =
      Except.error (RouterError.invariantFailure (some "TTL")) ∧
    Router.swapCallParameters 1700000000 tradeTok optionsBadAddr =
      Except.error (RouterError.invalidAddress "0xnot") :=
  ⟨(C3_policy_failures 1700000000 tradeTok optionsTtl0 (by decide)).1 rfl,
   (C3_policy_failures 1700000000 tradeTok optionsBadAddr (by decide)).2
     ⟨Currency.ether, 0⟩ (by decide) rfl rfl (by decide)⟩

/-- C4 counterexample: the tip amount is not optional.  With no tip supplied
and every other validation passing, the builder fails (with the untagged
invariant failure); supplying a native tip under otherwise identical options
succeeds. -/
theorem C4_counterexample :
    Router.swapCallParameters 1700000000 tradeTok optionsNoTip =
      Except.error (RouterError.invariantFailure none) ∧
    ∃ res, Router.swapCallParameters 1700000000 tradeTok optionsTip7 =
      Except.ok res :=
  ⟨rfl, ⟨_, rfl⟩⟩

/-- C4 amended: the tip amount is required.  When the other validations pass,
the call fails with the untagged invariant failure whenever no tip amount is
supplied or the supplied tip is not denominated in the native asset, and it
succeeds whenever a native-denominated tip is supplied. -/
theorem C4_tip_required (now : Nat) (trade : Trade) (options : TradeOptions)
    (hio : ¬(trade.inputAmount.currency = Currency.ether ∧
             trade.outputAmount.currency = Currency.ether))
    (httl : options.ttl > 0) :
    (options.ethFee = none →
      Router.swapCallParameters now trade options =
        Except.error (RouterError.invariantFailure none)) ∧
    (∀ fee, options.ethFee = some fee → fee.currency ≠ Currency.ether →
      Router.swapCallParameters now trade options =
        Except.error (RouterError.invariantFailure none)) ∧
    (∀ fee, options.ethFee = some fee → fee.currency = Currency.ether →
      isValidAddress options.recipient = true →
      ∃ res, Router.swapCallParameters now trade options = Except.ok res) := by
  refine ⟨?_, ?_, ?_⟩
  · intro hnone
    exact swapCallParameters_error_tip now trade options hio httl
      (fun fee hf => by rw [hnone] at hf; cases hf)
  · intro fee hfee hfc
    exact swapCallParameters_error_tip now trade options hio httl
      (fun fee' hf => by rw [hfee] at hf; rw [← Option.some.inj hf]; exact hfc)
  · intro fee hfee hfc haddr
    exact ⟨_, swapCallParameters_ok now trade options fee hfee hfc haddr httl hio⟩

/-- Witness for C4's amended claim at concrete inputs. -/
theorem C4_tip_required_witness :
    Router.swapCallParameters 1700000000 tradeEthOut optionsNoTip =
      Except.error (RouterError.invariantFailure none) ∧
    Router.swapCallParameters 1700000000 tradeEthOut optionsTokenTip =
      Except.error (RouterError.invariantFailure none) ∧
    ∃ res, Router.swapCallParameters 1700000000 tradeEthOut optionsTip7 =
      Except.ok res :=
  ⟨(C4_tip_required 1700000000 tradeEthOut optionsNoTip (by decide) (by decide)).1 rfl,
   (C4_tip_required 1700000000 tradeEthOut optionsTokenTip (by decide) (by decide)).2.1
     ⟨Currency.token tokenB, 7⟩ rfl (by decide),
   (C4_tip_required 1700000000 tradeEthOut optionsTip7 (by decide) (by decide)).2.2
     ⟨Currency.ether, 7⟩ rfl rfl (by decide)⟩

/-- C5: at the fixed Unix time 1700000000, the one-hop exact-input native-in
trade with ttl 1200 and a zero tip returns the expected method name, a path of
length two in the struct argument, and a `value` equal to the hex encoding of
`maximumAmountIn(allowedSlippage)`. -/
theorem C5_concrete_eth_in :
    Router.swapCallParameters 1700000000 tradeEthIn optionsZeroTip =
      Except.ok resEthIn ∧
    resEthIn.methodName = "swapExactETHForTokensWithFeeAmount" ∧
    resEthIn.args.head? = some (SwapArg.trade stEthIn) ∧
    stEthIn.path.length = 2 ∧
    resEthIn.value = toHex (tradeEthIn.maximumAmountIn optionsZeroTip.allowedSlippage) :=
  ⟨rfl, rfl, rfl, rfl, rfl⟩

/-- C6 counterexample: at a native-in exact-input trade, with the tip option
field renamed, the two routers agree on args and value but return different
method names, so they are not extensionally equal up to the field renaming. -/
theorem C6_counterexample :
    Router.swapCallParameters 1700000000 tradeEthIn optionsZeroTip =
      Except.ok resEthIn ∧
    Router2.swapCallParameters 1700000000 tradeEthIn optionsZeroTip.toTipOptions =
      Except.ok resEthIn2 ∧
    resEthIn.args = resEthIn2.args ∧
    resEthIn.value = resEthIn2.value ∧
    resEthIn.methodName ≠ resEthIn2.methodName :=
  ⟨rfl, rfl, rfl, rfl, by decide⟩

/-- C6 amended: for equal tip amounts the two routers return the same args
and the same value, but the method names agree only in the exact-input
native-out case; in the other five validated cases the fee router's
`WithFeeAmount`/`AndFeeAmount` names differ from the tip router's
`WithTipAmount`/`AndTipAmount` names. -/
theorem C6_args_value_agree (now : Nat) (trade : Trade) (options : TradeOptions)
    (r1 r2 : SwapParameters)
    (h1 : Router.swapCallParameters now trade options = Except.ok r1)
    (h2 : Router2.swapCallParameters now trade options.toTipOptions = Except.ok r2) :
    r1.args = r2.args ∧ r1.value = r2.value ∧
    (r1.methodName = r2.methodName ↔
      (trade.tradeType = TradeType.EXACT_INPUT ∧
        trade.outputAmount.currency = Currency.ether)) := by
  obtain ⟨fee, hfee, hfc, haddr, httl, hio, hr1⟩ := swapCallParameters_ok_inv h1
  obtain ⟨tip, htip, -, -, -, -, hr2⟩ := swapCallParameters2_ok_inv h2
  have hconv : TipTradeOptions.ethTip (TradeOptions.toTipOptions options) =
      options.ethFee := rfl
  rw [hconv, hfee] at htip
  obtain rfl := Option.some.inj htip
  subst hr1
  subst hr2
  refine ⟨rfl, rfl, ?_⟩
  obtain ⟨rt, tt, ia, oa⟩ := trade
  by_cases hin : ia.currency = Currency.ether
  · have hout : oa.currency ≠ Currency.ether := fun h => hio ⟨hin, h⟩
    have hinb : (ia.currency == Currency.ether) = true := by simp [hin]
    cases tt <;>
      simp [buildResult, buildResult2, specMethodName, tipMethodName, hinb, hout]
  · have hinb : (ia.currency == Currency.ether) = false := by simp [hin]
    by_cases hout : oa.currency = Currency.ether
    · have houtb : (oa.currency == Currency.ether) = true := by simp [hout]
      cases tt <;>
        simp [buildResult, buildResult2, specMethodName, tipMethodName, hinb, houtb, hout]
    · have houtb : (oa.currency == Currency.ether) = false := by simp [hout]
      cases tt <;>
        simp [buildResult, buildResult2, specMethodName, tipMethodName, hinb, houtb, hout]

/-- Witness for C6's amended claim at the exact-input native-out trade, where
the method names do agree. -/
theorem C6_args_value_agree_witness :
    resEthOut.args = resEthOut.args ∧ resEthOut.value = resEthOut.value ∧
    (resEthOut.methodName = resEthOut.methodName ↔
      (tradeEthOut.tradeType = TradeType.EXACT_INPUT ∧
        tradeEthOut.outputAmount.currency = Currency.ether)) :=
  C6_args_value_agree 1700000000 tradeEthOut optionsTip7 resEthOut resEthOut
    (by rfl) (by rfl)

/-- All numeric fields of the assembled struct argument are minimal hex. -/
theorem mkSafeSwapTrade_minimal (now : Nat) (trade : Trade) (p : Percent) (ttl : Int)
    (r : String) :
    isMinimalHex (mkSafeSwapTrade now trade p ttl r).amountIn = true ∧
    isMinimalHex (mkSafeSwapTrade now trade p ttl r).amountOut = true ∧
    isMinimalHex (mkSafeSwapTrade now trade p ttl r).deadline = true :=
  ⟨isMinimalHex_toHex _, isMinimalHex_toHex _, isMinimalHex_hexString _⟩

/-- C7: on every validated call, the `value` field, the tip string argument
when present, and the `amountIn`, `amountOut` and `deadline` fields of the
struct argument are minimal-width lowercase `0x`-prefixed hexadecimal
strings. -/
theorem C7_minimal_hex_fields (now : Nat) (trade : Trade) (options : TradeOptions)
    (res : SwapParameters)
    (h : Router.swapCallParameters now trade options = Except.ok res) :
    isMinimalHex res.value = true ∧
    ∀ a ∈ res.args,
      (∀ s, a = SwapArg.str s → isMinimalHex s = true) ∧
      (∀ st, a = SwapArg.trade st →
        isMinimalHex st.amountIn = true ∧ isMinimalHex st.amountOut = true ∧
        isMinimalHex st.deadline = true) := by
  obtain ⟨fee, -, -, -, -, -, hres⟩ := swapCallParameters_ok_inv h
  subst hres
  have hst := mkSafeSwapTrade_minimal now trade options.allowedSlippage options.ttl
    options.recipient
  by_cases hin : trade.inputAmount.currency = Currency.ether
  · have hinb : (trade.inputAmount.currency == Currency.ether) = true := by simp [hin]
    refine ⟨?_, ?_⟩
    · simp only [buildResult, hinb, if_true]
      exact isMinimalHex_hexString _
    · intro a ha
      simp [buildResult, hinb] at ha
      rcases ha with rfl | rfl
      · refine ⟨fun s hs => by simp at hs, fun st hst2 => ?_⟩
        rw [← SwapArg.trade.inj hst2]
        exact hst
      · refine ⟨fun s hs => ?_, fun st hst2 => by simp at hst2⟩
        rw [← SwapArg.str.inj hs]
        exact isMinimalHex_toHex fee
  · have hinb : (trade.inputAmount.currency == Currency.ether) = false := by simp [hin]
    refine ⟨?_, ?_⟩
    · simp only [buildResult, hinb, Bool.false_eq_true, if_false]
      exact isMinimalHex_toHex fee
    · intro a ha
      simp [buildResult, hinb] at ha
      subst ha
      refine ⟨fun s hs => by simp at hs, fun st hst2 => ?_⟩
      rw [← SwapArg.trade.inj hst2]
      exact hst

/-- Witness for C7 at the concrete native-in trade. -/
theorem C7_minimal_hex_fields_witness :
    isMinimalHex resEthIn.value = true ∧
    ∀ a ∈ resEthIn.args,
      (∀ s, a = SwapArg.str s → isMinimalHex s = true) ∧
      (∀ st, a = SwapArg.trade st →
        isMinimalHex st.amountIn = true ∧ isMinimalHex st.amountOut = true ∧
        isMinimalHex st.deadline = true) :=
  C7_minimal_hex_fields 1700000000 tradeEthIn optionsZeroTip resEthIn (by rfl)

/-- C8 counterexample: the tip-currency check fails with the invariant error
that carries no reason message (the source calls `invariant` without a message
there), so that failure is not tagged with a distinct reason as the claim
states. -/
theorem C8_counterexample :
    Router.swapCallParameters 1700000000 tradeEthIn optionsTokenTip =
      Except.error (RouterError.invariantFailure none) := rfl

/-- C8 amended: each validation failure is reported before any amount
computation; the ttl, native-in/native-out and recipient failures carry
distinct reason tags, while the tip-currency check fails with the untagged
invariant failure, which is still distinct from the other three error
values. -/
theorem C8_policy_error_taxonomy (now : Nat) (trade : Trade) (options : TradeOptions) :
    (trade.inputAmount.currency = Currency.ether →
      trade.outputAmount.currency = Currency.ether →
      Router.swapCallParameters now trade options =
        Except.error (RouterError.invariantFailure (some "ETHER_IN_OUT"))) ∧
    (¬(trade.inputAmount.currency = Currency.ether ∧
       trade.outputAmount.currency = Currency.ether) →
      (options.ttl ≤ 0 →
        Router.swapCallParameters now trade options =
          Except.error (RouterError.invariantFailure (some "TTL"))) ∧
      (options.ttl > 0 →
        ((∀ fee, options.ethFee = some fee → fee.currency ≠ Currency.ether) →
          Router.swapCallParameters now trade options =
            Except.error (RouterError.invariantFailure none)) ∧
        (∀ fee, options.ethFee = some fee → fee.currency = Currency.ether →
          isValidAddress options.recipient = false →
          Router.swapCallParameters now trade options =
            Except.error (RouterError.invalidAddress options.recipient)))) ∧
    List.Pairwise (fun e e' => e ≠ e')
      [RouterError.invariantFailure (some "ETHER_IN_OUT"),
       RouterError.invariantFailure (some "TTL"),
       RouterError.invariantFailure none,
       RouterError.invalidAddress options.recipient] := by
  refine ⟨?_, ?_, ?_⟩
  · intro hin hout
    exact swapCallParameters_error_both now trade options hin hout
  · intro hio
    exact ⟨fun httl => swapCallParameters_error_ttl now trade options hio httl,
      fun httl =>
        ⟨fun htip => swapCallParameters_error_tip now trade options hio httl htip,
         fun fee hfee hfc haddr =>
           swapCallParameters_error_addr now trade options fee hio httl hfee hfc haddr⟩⟩
  · simp

/-- Witness for C8's amended claim: each of the four failures at a concrete
input. -/
theorem C8_policy_error_taxonomy_witness :
    Router.swapCallParameters 1700000000 tradeBothEth optionsTip7 =
      Except.error (RouterError.invariantFailure (some "ETHER_IN_OUT")) ∧
    Router.swapCallParameters 1700000000 tradeEthOut optionsTtl0 =
      Except.error (RouterError.invariantFailure (some "TTL")) ∧
    Router.swapCallParameters 1700000000 tradeEthOut optionsNoTip =
      Except.error (RouterError.invariantFailure none) ∧
    Router.swapCallParameters 1700000000 tradeEthOut optionsBadAddr =
      Except.error (RouterError.invalidAddress "0xnot") :=
  ⟨(C8_policy_error_taxonomy 1700000000 tradeBothEth optionsTip7).1 rfl rfl,
   ((C8_policy_error_taxonomy 1700000000 tradeEthOut optionsTtl0).2.1 (by decide)).1
     (by decide),
   (((C8_policy_error_taxonomy 1700000000 tradeEthOut optionsNoTip).2.1 (by decide)).2
     (by decide)).1 (fun fee hf => by cases hf),
   (((C8_policy_error_taxonomy 1700000000 tradeEthOut optionsBadAddr).2.1 (by decide)).2
     (by decide)).2 ⟨Currency.ether, 0⟩ rfl rfl (by decide)⟩

/-- C9 counterexample: the RINKEBY entries of the per-network tables are the
empty string, which is neither a usable factory address nor a nonempty
init-code hash. -/
theorem C9_counterexample :
    FACTORY_ADDRESS ChainId.RINKEBY = "" ∧
    isValidAddress (FACTORY_ADDRESS ChainId.RINKEBY) = false ∧
    INIT_CODE_HASH ChainId.RINKEBY = "" := by
  refine ⟨rfl, by decide, rfl⟩

/-- C9 amended: the tables supply a validator-accepted factory address and a
nonempty init-code hash exactly for MAINNET, ROPSTEN, BSC_MAINNET and
BSC_TESTNET, while the RINKEBY, GOERLI and KOVAN entries of both tables are
empty strings. -/
theorem C9_tables_partial :
    ([ChainId.MAINNET, ChainId.ROPSTEN, ChainId.BSC_MAINNET, ChainId.BSC_TESTNET].all
      (fun c => isValidAddress (FACTORY_ADDRESS c) && (INIT_CODE_HASH c != "")) = true) ∧
    ([ChainId.RINKEBY, ChainId.GOERLI, ChainId.KOVAN].all
      (fun c => (FACTORY_ADDRESS c == "") && (INIT_CODE_HASH c == "")) = true) := by
  refine ⟨by decide, by decide⟩

/-- C10: on every validated call, `args` starts with the struct record built
from the slippage-adjusted amounts, token-address path, validated recipient
and deadline, and contains the tip hex string as a second element exactly when
the input currency is the native asset, and nothing else. -/
theorem C10_args_structure (now : Nat) (trade : Trade) (options : TradeOptions)
    (fee : CurrencyAmount) (res : SwapParameters)
    (hfee : options.ethFee = some fee)
    (h : Router.swapCallParameters now trade options = Except.ok res) :
    ∃ st : SafeSwapTrade,
      st.amountIn = toHex (trade.maximumAmountIn options.allowedSlippage) ∧
      st.amountOut = toHex (trade.minimumAmountOut options.allowedSlippage) ∧
      st.path = trade.route.path.map Token.address ∧
      st.«to» = options.recipient ∧
      st.deadline = "0x" ++ String.mk (hexDigits ((Int.ofNat now + options.ttl).toNat)) ∧
      (trade.inputAmount.currency = Currency.ether →
        res.args = [SwapArg.trade st, SwapArg.str (toHex fee)]) ∧
      (trade.inputAmount.currency ≠ Currency.ether →
        res.args = [SwapArg.trade st]) := by
  obtain ⟨fee', hfee', -, -, -, -, hres⟩ := swapCallParameters_ok_inv h
  rw [hfee] at hfee'
  obtain rfl := Option.some.inj hfee'
  subst hres
  refine ⟨mkSafeSwapTrade now trade options.allowedSlippage options.ttl options.recipient,
    rfl, rfl, rfl, rfl, rfl, ?_, ?_⟩
  · intro hin
    have hinb : (trade.inputAmount.currency == Currency.ether) = true := by simp [hin]
    simp [buildResult, hinb]
  · intro hin
    have hinb : (trade.inputAmount.currency == Currency.ether) = false := by simp [hin]
    simp [buildResult, hinb]

/-- The fee router's output for `tradeTok` with `optionsTip7`. -/
def resTok : SwapParameters :=
  ⟨"swapTokensForExactTokensWithFeeAmount",
   [SwapArg.trade ⟨"0x1f9", "0xbb8",
     ["0x86A859773cf6df9C8117F20b0B950adA84e7644d",
      "0x0eef57EAE29DA890be9211c010F3e31d950fbE67"],
     goodRecipient, "0x6553f358"⟩], "0x7"⟩

/-- Witness for C10 at the concrete token-to-token trade with a native tip. -/
theorem C10_args_structure_witness :
    ∃ st : SafeSwapTrade,
      st.amountIn = toHex (tradeTok.maximumAmountIn optionsTip7.allowedSlippage) ∧
      st.amountOut = toHex (tradeTok.minimumAmountOut optionsTip7.allowedSlippage) ∧
      st.path = tradeTok.route.path.map Token.address ∧
      st.«to» = optionsTip7.recipient ∧
      st.deadline =
        "0x" ++ String.mk (hexDigits ((Int.ofNat 1700000000 + optionsTip7.ttl).toNat)) ∧
      (tradeTok.inputAmount.currency = Currency.ether →
        resTok.args = [SwapArg.trade st, SwapArg.str (toHex ⟨Currency.ether, 7⟩)]) ∧
      (tradeTok.inputAmount.currency ≠ Currency.ether →
        resTok.args = [SwapArg.trade st]) :=
  C10_args_structure 1700000000 tradeTok optionsTip7 ⟨Currency.ether, 7⟩ resTok rfl (by rfl)
